import Mathlib

/-!
Verification of the OTP account decoder and normalizer of AuthenticatorTray
(`setup.py`).  The Python functions `parse_otpauth_url`,
`parse_migration_url` (its per-record normalization loop) and
`create_accounts_json` are embedded as executable Lean definitions, together
with the parts of the Python standard library they rely on
(`urllib.parse.urlparse`, `urllib.parse.parse_qs`, `urllib.parse.unquote`,
`int`, `str.upper`, `base64.b32encode`), modelled for ASCII inputs with
percent-escaped bytes decoded byte-wise.
-/

/-- Characters Python's url splitting accepts inside a scheme. -/
def isSchemeChar (c : Char) : Bool :=
  c.isAlpha || c.isDigit || c == '+' || c == '-' || c == '.'

/-- Split a character list at the first occurrence of `sep`
(the separator is dropped); `none` when `sep` does not occur.
Mirrors Python `s.split(sep, 1)` when `sep in s`. -/
def splitOnFirstChar (sep : Char) : List Char → Option (List Char × List Char)
  | [] => none
  | c :: rest =>
    if c = sep then some ([], rest)
    else
      match splitOnFirstChar sep rest with
      | some (a, b) => some (c :: a, b)
      | none => none

/-- Full split at every occurrence of `sep`; mirrors Python `s.split(sep)`
(so the empty string yields one empty chunk). -/
def splitAllChar (sep : Char) : List Char → List (List Char)
  | [] => [[]]
  | c :: rest =>
    let r := splitAllChar sep rest
    if c = sep then [] :: r
    else
      match r with
      | h :: t => (c :: h) :: t
      | [] => [[c]]

/-- Split at the last slash: returns the part up to and including the last
slash and the suffix after it; `none` when there is no slash. -/
def splitAtLastSlash : List Char → Option (List Char × List Char)
  | [] => none
  | c :: rest =>
    match splitAtLastSlash rest with
    | some (p, s) => some (c :: p, s)
    | none => if c = '/' then some (['/'], rest) else none

/-- Value of a hexadecimal digit character. -/
def hexVal (c : Char) : Option Nat :=
  if '0' ≤ c ∧ c ≤ '9' then some (c.toNat - 48)
  else if 'a' ≤ c ∧ c ≤ 'f' then some (c.toNat - 87)
  else if 'A' ≤ c ∧ c ≤ 'F' then some (c.toNat - 55)
  else none

/-- Percent-decoding of `urllib.parse.unquote`, byte-wise: a `%` followed
by two hex digits becomes the character of that byte value; an incomplete
or non-hex escape is left as a literal `%`. -/
def unquoteChars : List Char → List Char
  | [] => []
  | '%' :: a :: b :: rest =>
    match hexVal a, hexVal b with
    | some x, some y => Char.ofNat (16 * x + y) :: unquoteChars rest
    | _, _ => '%' :: unquoteChars (a :: b :: rest)
  | c :: rest => c :: unquoteChars rest

/-- `urllib.parse.unquote` on strings. -/
def pyUnquote (s : String) : String := String.mk (unquoteChars s.data)

/-- `urllib.parse.unquote_plus`: `+` becomes a space, then percent-decode. -/
def unquotePlus (cs : List Char) : String :=
  String.mk (unquoteChars (cs.map (fun c => if c == '+' then ' ' else c)))

/-- ASCII whitespace stripped by Python `int`. -/
def isPySpace (c : Char) : Bool :=
  c == ' ' || c == '\t' || c == '\n' || c == '\x0b' || c == '\x0c' || c == '\r'

/-- Numeric value of a digit list. -/
def natOfDigits (ds : List Char) : Nat :=
  ds.foldl (fun a c => 10 * a + (c.toNat - 48)) 0

/-- Python `int(s)` for ASCII strings: strip surrounding whitespace, allow
one sign, then decimal digits with single underscores between digit groups;
any other shape raises `ValueError`, modelled as `none`. -/
def pyInt (s : String) : Option Int :=
  let cs := ((s.data.dropWhile isPySpace).reverse.dropWhile isPySpace).reverse
  let signAndDigits : Int × List Char :=
    match cs with
    | '+' :: r => (1, r)
    | '-' :: r => (-1, r)
    | r => (1, r)
  let ds := signAndDigits.2
  if ds = [] then none
  else if (splitAllChar '_' ds).all (fun g => g ≠ [] && g.all Char.isDigit) then
    some (signAndDigits.1 * (natOfDigits (ds.filter (fun c => c ≠ '_')) : Int))
  else none

/-- Python `str.upper` restricted to ASCII. -/
def asciiUpper (s : String) : String := String.mk (s.data.map Char.toUpper)

deriving instance DecidableEq for Except

/-- The result of `urllib.parse.urlparse`. -/
structure UrlParts where
  scheme : String
  netloc : String
  path : String
  pathParams : String
  query : String
  fragment : String
deriving DecidableEq

/-- The schemes for which `urllib.parse.urlparse` splits path parameters
(`urllib.parse.uses_params`). -/
def usesParams : List String :=
  ["", "ftp", "hdl", "prospero", "http", "imap", "https", "shttp", "rtsp",
   "rtsps", "rtspu", "sip", "sips", "mms", "sftp", "tel"]

/-- Python `urlparse._splitparams`: when the path has a slash, split at a
semicolon found at or after the last slash; otherwise at the first
semicolon. -/
def splitparams (path : List Char) : List Char × List Char :=
  match splitAtLastSlash path with
  | some (pre, suf) =>
    match splitOnFirstChar ';' suf with
    | some (a, b) => (pre ++ a, b)
    | none => (path, [])
  | none =>
    match splitOnFirstChar ';' path with
    | some (a, b) => (a, b)
    | none => (path, [])

/-- `urllib.parse.urlparse`: first remove tab, carriage-return and newline
characters; split off a scheme when the text before the
first colon is a nonempty run of scheme characters starting with a letter;
then a `//`-introduced netloc up to the next `/`, `?` or `#` (raising
`ValueError` on unbalanced square brackets, modelled as `Except.error`);
then the fragment after the first `#`, the query after the first `?`, and,
only for schemes in `usesParams`, path parameters after a `;` in the last
path segment. -/
def pyUrlparse (url : String) : Except String UrlParts :=
  let cs := url.data.filter (fun c => !(c == '\t' || c == '\r' || c == '\n'))
  let schemeRest : List Char × List Char :=
    match splitOnFirstChar ':' cs with
    | some (pre, post) =>
      match pre with
      | [] => ([], cs)
      | c :: _ =>
        if c.isAlpha && pre.all isSchemeChar then (pre.map Char.toLower, post)
        else ([], cs)
    | none => ([], cs)
  let scheme := schemeRest.1
  let netlocRest : List Char × List Char :=
    match schemeRest.2 with
    | '/' :: '/' :: r =>
      (r.takeWhile (fun c => !(c == '/' || c == '?' || c == '#')),
       r.dropWhile (fun c => !(c == '/' || c == '?' || c == '#')))
    | r => ([], r)
  let netloc := netlocRest.1
  if (netloc.contains '[' && !netloc.contains ']')
      || (netloc.contains ']' && !netloc.contains '[') then
    Except.error "Invalid IPv6 URL"
  else
    let restFrag : List Char × List Char :=
      match splitOnFirstChar '#' netlocRest.2 with
      | some (a, b) => (a, b)
      | none => (netlocRest.2, [])
    let restQuery : List Char × List Char :=
      match splitOnFirstChar '?' restFrag.1 with
      | some (a, b) => (a, b)
      | none => (restFrag.1, [])
    let pathPar :=
      if usesParams.contains (String.mk scheme) && restQuery.1.contains ';' then
        splitparams restQuery.1
      else (restQuery.1, [])
    Except.ok
      { scheme := String.mk scheme
        netloc := String.mk netloc
        path := String.mk pathPar.1
        pathParams := String.mk pathPar.2
        query := String.mk restQuery.2
        fragment := String.mk restFrag.2 }

/-- One field of a query string, as `urllib.parse.parse_qsl` handles it:
empty chunks are skipped; a chunk without `=` is kept (with empty value)
only when blanks are kept; a chunk with an empty value is kept only when
blanks are kept; names and values are plus-then-percent decoded. -/
def processChunk (keepBlank : Bool) (chunk : List Char) : Option (String × String) :=
  if chunk = [] then none
  else
    match splitOnFirstChar '=' chunk with
    | some (n, v) =>
      if v = [] && !keepBlank then none
      else some (unquotePlus n, unquotePlus v)
    | none =>
      if keepBlank then some (unquotePlus chunk, "") else none

/-- `urllib.parse.parse_qsl` (separator `&`). -/
def parseQsl (keepBlank : Bool) (qs : String) : List (String × String) :=
  (splitAllChar '&' qs.data).filterMap (processChunk keepBlank)

/-- `urllib.parse.parse_qs` with default arguments, as `setup.py` calls it. -/
def pyParseQs (qs : String) : List (String × String) := parseQsl false qs

/-- `params.get(key, [default])[0]`: the first value bound to `key`. -/
def pyGetFirst (ps : List (String × String)) (key : String) : Option String :=
  (ps.find? (fun p => p.1 == key)).map (fun p => p.2)

/-- The normalized account record both parsers emit
(keys `name`, `secret`, `digits`, `algorithm`). -/
structure Account where
  name : String
  secret : String
  digits : Nat
  algorithm : String
deriving DecidableEq

/-- Display-name composition as written inline in `parse_otpauth_url`
(setup.py lines 136-144). -/
def displayNameUrl (issuer account_name : String) : String :=
  if issuer ≠ "" ∧ account_name ≠ "" then issuer ++ " (" ++ account_name ++ ")"
  else if issuer ≠ "" then issuer
  else if account_name ≠ "" then account_name
  else "Unknown"

/-- Python truthiness of an optional string. -/
def optTruthy (o : Option String) : Bool := o.getD "" ≠ ""

/-- Issuer / account-name extraction from the label and the `issuer` query
parameter (setup.py lines 123-134).  When the label contains a colon
(`splitOnFirstChar` returns `some`), a truthy issuer parameter takes
precedence and the part after the first colon is the account name;
otherwise the part before the colon becomes the issuer.  Without a colon
the whole label is the account name. -/
def labelSplit (label : String) (issuerP : Option String) : String × String :=
  match splitOnFirstChar ':' label.data with
  | some (p0, p1) =>
    if optTruthy issuerP then (issuerP.getD "", String.mk p1)
    else (String.mk p0, String.mk p1)
  | none =>
    (if optTruthy issuerP then issuerP.getD "" else "", label)

/-- The label: the percent-decoded path with leading slashes stripped
(setup.py line 112). -/
def labelOf (parts : UrlParts) : String :=
  pyUnquote (String.mk (parts.path.data.dropWhile (fun c => c == '/')))

/-- Algorithm validation of the single-URL path (setup.py lines 147-149):
uppercase, then fall back to SHA1 outside the fixed set. -/
def validateAlgorithm (s : String) : String :=
  let u := asciiUpper s
  if u = "SHA1" ∨ u = "SHA256" ∨ u = "SHA512" ∨ u = "MD5" then u else "SHA1"

/-- Digit validation of the single-URL path (setup.py lines 152-154):
keep a parsed value in the set 6..8, otherwise 6. -/
def validateDigitsUrl (n : Int) : Nat :=
  if n = 6 ∨ n = 7 ∨ n = 8 then n.toNat else 6

/-- The body of `parse_otpauth_url` (setup.py lines 106-161), with the two
statements that can raise (`urlparse` on unbalanced brackets, `int` on a
non-numeric digits value) modelled in the `Except` monad; `Except.ok none`
is an early `return None`. -/
def parseOtpauthBody (url : String) : Except String (Option Account) :=
  match pyUrlparse url with
  | Except.error e => Except.error e
  | Except.ok parsed =>
    if parsed.scheme ≠ "otpauth" then Except.ok none
    else
      let label := labelOf parsed
      let params := pyParseQs parsed.query
      match pyGetFirst params "secret" with
      | none => Except.ok none
      | some secret =>
        if secret = "" then Except.ok none
        else
          let issuerP := pyGetFirst params "issuer"
          let ia := labelSplit label issuerP
          let display_name := displayNameUrl ia.1 ia.2
          let algorithm := validateAlgorithm ((pyGetFirst params "algorithm").getD "SHA1")
          match pyInt ((pyGetFirst params "digits").getD "6") with
          | none => Except.error "invalid literal for int with base 10"
          | some n =>
            Except.ok (some
              { name := display_name
                secret := secret
                digits := validateDigitsUrl n
                algorithm := algorithm })

/-- `parse_otpauth_url`: the body with every exception caught and turned
into `None` (setup.py lines 104-164). -/
def parse_otpauth_url (url : String) : Option Account :=
  match parseOtpauthBody url with
  | Except.ok r => r
  | Except.error _ => none

/-- Character of one 5-bit group in the RFC 4648 Base32 alphabet. -/
def b32char (n : Nat) : Char :=
  if n < 26 then Char.ofNat (65 + n) else Char.ofNat (50 + (n - 26))

/-- The `i`-th 5-bit group (from the top) of a 40-bit chunk value. -/
def b32group (n i : Nat) : Char := b32char (n / 2 ^ (35 - 5 * i) % 32)

/-- Encode one chunk of one to five bytes into eight Base32 characters,
padding with `=` as `base64.b32encode` does. -/
def b32chunk (bytes : List Nat) : List Char :=
  let k := bytes.length
  let n := (bytes.foldl (fun a b => a * 256 + b) 0) * 2 ^ (40 - 8 * k)
  let nchars := List.getD [0, 2, 4, 5, 7, 8] k 8
  (List.range nchars).map (b32group n) ++ List.replicate (8 - nchars) '='

/-- `base64.b32encode` over the byte list, chunk by chunk. -/
def b32encodeChars : List Nat → List Char
  | [] => []
  | b1 :: b2 :: b3 :: b4 :: b5 :: rest => b32chunk [b1, b2, b3, b4, b5] ++ b32encodeChars rest
  | [b1] => b32chunk [b1]
  | [b1, b2] => b32chunk [b1, b2]
  | [b1, b2, b3] => b32chunk [b1, b2, b3]
  | [b1, b2, b3, b4] => b32chunk [b1, b2, b3, b4]

/-- `base64.b32encode(secret).decode("utf-8")` as a string. -/
def b32encode (bs : List Nat) : String := String.mk (b32encodeChars bs)

/-- One decoded `otp_parameters` entry of the migration payload, with the
proto3 defaults for absent fields (empty bytes, empty string, zero). -/
structure OtpParameters where
  secret : List Nat
  name : String
  issuer : String
  algorithm : Nat
  digits : Nat
deriving DecidableEq

/-- Display-name composition as written inline in `parse_migration_url`
(setup.py lines 198-205). -/
def displayNameMigration (issuer name : String) : String :=
  if issuer ≠ "" ∧ name ≠ "" then issuer ++ " (" ++ name ++ ")"
  else if issuer ≠ "" then issuer
  else if name ≠ "" then name
  else "Unknown"

/-- `algorithm_map.get(otp.algorithm, "SHA1")` (setup.py lines 208-214). -/
def algorithmFromCode (code : Nat) : String :=
  if code = 1 then "SHA1"
  else if code = 2 then "SHA256"
  else if code = 3 then "SHA512"
  else if code = 4 then "MD5"
  else "SHA1"

/-- Digit handling of the migration path (setup.py line 217):
`otp.digits if otp.digits in [6, 7, 8] else 6`. -/
def validateDigitsMigration (d : Nat) : Nat :=
  if d = 6 ∨ d = 7 ∨ d = 8 then d else 6

/-- Modelled from the spec: the digit-count enumeration of the export
format, defined in `auth_migration.proto`, which is not under `src/`:
code 1 means 6 digits, code 2 means 8 digits, and code 0 (unspecified)
or any unknown code falls back to 6. -/
def specDigitCodeToDigits (code : Nat) : Nat :=
  if code = 1 then 6 else if code = 2 then 8 else 6

/-- The per-record normalization of the loop body of `parse_migration_url`
(setup.py lines 190-224). -/
def normalizeOtp (otp : OtpParameters) : Account :=
  let secret_b32 := b32encode otp.secret
  let issuer := if otp.issuer ≠ "" then otp.issuer else ""
  let name := if otp.name ≠ "" then otp.name else ""
  let display_name := displayNameMigration issuer name
  let algorithm := algorithmFromCode otp.algorithm
  let digits := validateDigitsMigration otp.digits
  { name := display_name, secret := secret_b32, digits := digits, algorithm := algorithm }

/-- The account list `parse_migration_url` builds from the decoded
`otp_parameters` entries (setup.py lines 189-226); the upstream base64 and
protobuf decoding of the payload happens in `auth_migration_pb2`, outside
`src/`, so the embedding starts from the decoded entry list. -/
def parse_migration_accounts (otps : List OtpParameters) : List Account :=
  otps.map normalizeOtp

/-- A file system, mapping a path to the structured account list stored
there; file contents are modelled by the parsed value `json.dump` writes. -/
def FileSystem : Type := String → Option (List Account)

/-- The primary output path `CSHARP_ACCOUNTS_JSON` (setup.py line 23). -/
def ACCOUNTS_JSON_PATH : String := "csharp-tray/AuthenticatorTray/accounts.json"

/-- The alternate output path chosen on collision (setup.py line 310). -/
def UPDATED_ACCOUNTS_JSON_PATH : String := "csharp-tray/AuthenticatorTray/updated_accounts.json"

/-- `create_accounts_json` (setup.py lines 288-319): with no accounts,
report failure and leave the file system alone; otherwise write to the
primary path, or to the fixed alternate path when the primary one is
occupied, and report the path written. -/
def create_accounts_json (accounts : List Account) (fs : FileSystem) :
    Option String × FileSystem :=
  if accounts = [] then (none, fs)
  else
    let csharp_file :=
      if (fs ACCOUNTS_JSON_PATH).isSome then UPDATED_ACCOUNTS_JSON_PATH
      else ACCOUNTS_JSON_PATH
    (some csharp_file, fun p => if p = csharp_file then some accounts else fs p)

/-! ### Helper lemmas -/

theorem b32encodeChars_eq_nil (bs : List Nat) : b32encodeChars bs = [] ↔ bs = [] := by
  cases bs with
  | nil => simp [b32encodeChars]
  | cons b1 t1 =>
    cases t1 with
    | nil => simp [b32chunk, b32encodeChars]
    | cons b2 t2 =>
      cases t2 with
      | nil => simp [b32chunk, b32encodeChars]
      | cons b3 t3 =>
        cases t3 with
        | nil => simp [b32chunk, b32encodeChars]
        | cons b4 t4 =>
          cases t4 with
          | nil => simp [b32chunk, b32encodeChars]
          | cons b5 t5 => simp [b32chunk, b32encodeChars]

theorem b32encode_eq_empty (bs : List Nat) : b32encode bs = "" ↔ bs = [] := by
  show String.mk (b32encodeChars bs) = String.mk [] ↔ bs = []
  rw [String.ext_iff]
  exact b32encodeChars_eq_nil bs

theorem unquoteChars_ne_nil (cs : List Char) (h : cs ≠ []) : unquoteChars cs ≠ [] := by
  rw [unquoteChars.eq_def]
  split
  · exact absurd rfl h
  · split
    · simp
    · simp
  · simp

theorem unquotePlus_ne_empty (cs : List Char) (h : cs ≠ []) : unquotePlus cs ≠ "" := by
  unfold unquotePlus
  intro hcontra
  have hl : unquoteChars (cs.map (fun c => if c == '+' then ' ' else c)) = [] :=
    congrArg String.data hcontra
  exact unquoteChars_ne_nil _ (by simpa using h) hl

theorem processChunk_false_eq (chunk : List Char) :
    processChunk false chunk =
      match processChunk true chunk with
      | some p => if p.2 = "" then none else some p
      | none => none := by
  unfold processChunk
  by_cases hc : chunk = []
  · simp [hc]
  · simp only [if_neg hc]
    cases hsp : splitOnFirstChar '=' chunk with
    | none => simp
    | some nv =>
      obtain ⟨n, v⟩ := nv
      by_cases hv : v = []
      · simp [hv, unquotePlus, unquoteChars]
      · simp [hv, unquotePlus_ne_empty v hv]

theorem filterMap_processChunk_false (l : List (List Char)) :
    l.filterMap (processChunk false) =
      (l.filterMap (processChunk true)).filter (fun p => p.2 ≠ "") := by
  induction l with
  | nil => rfl
  | cons c t ih =>
    rw [List.filterMap_cons, List.filterMap_cons, processChunk_false_eq]
    cases hp : processChunk true c with
    | none => simpa using ih
    | some p =>
      by_cases hp2 : p.2 = ""
      · simp [hp2, ih]
      · simp [hp2, ih]

theorem parseQsl_false_eq_filter (qs : String) :
    parseQsl false qs = (parseQsl true qs).filter (fun p => p.2 ≠ "") := by
  unfold parseQsl
  exact filterMap_processChunk_false _

/-- Inversion of a successful run of `parse_otpauth_url`: the URL must
have split with scheme `otpauth`, carried a nonempty first `secret` query
value and an int-parsable digits value, and the account is built from the
label split, that secret and the validated digits and algorithm. -/
theorem parse_otpauth_inv (url : String) (a : Account)
    (h : parse_otpauth_url url = some a) :
    ∃ (parts : UrlParts) (s : String) (n : Int),
      pyUrlparse url = Except.ok parts ∧
      parts.scheme = "otpauth" ∧
      pyGetFirst (pyParseQs parts.query) "secret" = some s ∧
      s ≠ "" ∧
      pyInt ((pyGetFirst (pyParseQs parts.query) "digits").getD "6") = some n ∧
      a = { name := displayNameUrl
                      (labelSplit (labelOf parts) (pyGetFirst (pyParseQs parts.query) "issuer")).1
                      (labelSplit (labelOf parts) (pyGetFirst (pyParseQs parts.query) "issuer")).2
            secret := s
            digits := validateDigitsUrl n
            algorithm := validateAlgorithm ((pyGetFirst (pyParseQs parts.query) "algorithm").getD "SHA1") } := by
  unfold parse_otpauth_url parseOtpauthBody at h
  cases hp : pyUrlparse url with
  | error e => rw [hp] at h; simp at h
  | ok parsed =>
    rw [hp] at h
    by_cases hs : parsed.scheme = "otpauth"
    · simp only [hs, ne_eq] at h
      cases hsec : pyGetFirst (pyParseQs parsed.query) "secret" with
      | none => simp [hsec] at h
      | some secret =>
        by_cases hne : secret = ""
        · simp [hsec, hne] at h
        · cases hint : pyInt ((pyGetFirst (pyParseQs parsed.query) "digits").getD "6") with
          | none => simp [hsec, hne, hint] at h
          | some n =>
            simp only [hsec, hne, hint, if_neg hne, not_true_eq_false, if_false,
              Option.some.injEq, reduceCtorEq, ite_false] at h
            exact ⟨parsed, secret, n, rfl, hs, hsec, hne, hint, h.symm⟩
    · simp [hs] at h

/-- Forward evaluation of `parse_otpauth_url` under the same
hypotheses. -/
theorem parse_otpauth_eval (url : String) (parts : UrlParts) (s : String) (n : Int)
    (hp : pyUrlparse url = Except.ok parts)
    (hs : parts.scheme = "otpauth")
    (hsec : pyGetFirst (pyParseQs parts.query) "secret" = some s)
    (hne : s ≠ "")
    (hd : pyInt ((pyGetFirst (pyParseQs parts.query) "digits").getD "6") = some n) :
    parse_otpauth_url url = some
      { name := displayNameUrl
                  (labelSplit (labelOf parts) (pyGetFirst (pyParseQs parts.query) "issuer")).1
                  (labelSplit (labelOf parts) (pyGetFirst (pyParseQs parts.query) "issuer")).2
        secret := s
        digits := validateDigitsUrl n
        algorithm := validateAlgorithm ((pyGetFirst (pyParseQs parts.query) "algorithm").getD "SHA1") } := by
  unfold parse_otpauth_url parseOtpauthBody
  rw [hp]
  simp [hs, hsec, hne, hd]

/-- When the digits value does not parse as an int, the raised exception
is caught and the whole parse yields no result. -/
theorem parse_otpauth_int_error (url : String) (parts : UrlParts) (s : String)
    (hp : pyUrlparse url = Except.ok parts)
    (hs : parts.scheme = "otpauth")
    (hsec : pyGetFirst (pyParseQs parts.query) "secret" = some s)
    (hne : s ≠ "")
    (hd : pyInt ((pyGetFirst (pyParseQs parts.query) "digits").getD "6") = none) :
    parse_otpauth_url url = none := by
  unfold parse_otpauth_url parseOtpauthBody
  rw [hp]
  simp [hs, hsec, hne, hd]

/-- When the first `secret` query value is absent the parse yields no
result, whatever the scheme. -/
theorem parse_otpauth_no_secret (url : String) (parts : UrlParts)
    (hp : pyUrlparse url = Except.ok parts)
    (hsec : pyGetFirst (pyParseQs parts.query) "secret" = none) :
    parse_otpauth_url url = none := by
  unfold parse_otpauth_url parseOtpauthBody
  rw [hp]
  by_cases hs : parts.scheme = "otpauth"
  · simp [hs, hsec]
  · simp [hs]

theorem displayNameUrl_eq_migration (i n : String) :
    displayNameUrl i n = displayNameMigration i n := rfl

theorem displayNameUrl_ne_empty (i n : String) : displayNameUrl i n ≠ "" := by
  unfold displayNameUrl
  by_cases h1 : i ≠ "" ∧ n ≠ ""
  · rw [if_pos h1]
    intro hcontra
    have hdata := congrArg String.data hcontra
    simp only [String.data_append] at hdata
    rcases List.append_eq_nil.mp hdata with ⟨hl, h2⟩
    exact absurd h2 (by decide)
  · rw [if_neg h1]
    by_cases h2 : i ≠ ""
    · rw [if_pos h2]; exact h2
    · rw [if_neg h2]
      by_cases h3 : n ≠ ""
      · rw [if_pos h3]; exact h3
      · rw [if_neg h3]; decide

/-! ### C1 -/

/-- C1: the claim states that the migration path's digit field is an
enumerated code mapped as 1 to 6 digits, 2 to 8 digits and 0 to 6.  The
export format does define those codes (`specDigitCodeToDigits`), but the
code's validator (`otp.digits if otp.digits in [6, 7, 8] else 6`) treats
the code as a literal digit count: on code 2, meaning eight digits, it
emits 6, so an eight-digit account is normalized with six digits. -/
theorem C1_digit_code_divergence :
    validateDigitsMigration 2 = 6 ∧ specDigitCodeToDigits 2 = 8 ∧
    validateDigitsMigration 2 ≠ specDigitCodeToDigits 2 ∧
    (normalizeOtp { secret := [10, 20], name := "Acct", issuer := "Issuer",
                    algorithm := 1, digits := 2 }).digits = 6 ∧
    validateDigitsMigration 1 = 6 ∧ validateDigitsMigration 0 = 6 := by
  decide

/-! ### C2 -/

/-- C2 counterexample: a migration record whose secret bytes are empty is
not dropped; it is emitted as an account whose secret is the empty
string. -/
theorem C2_counterexample :
    parse_migration_accounts
        [{ secret := [], name := "Ericlein", issuer := "GitHub",
           algorithm := 1, digits := 1 }] =
      [{ name := "GitHub (Ericlein)", secret := "", digits := 6,
         algorithm := "SHA1" }] := by
  decide

/-- C2 amended: the migration loop emits one account per decoded record
(nothing is dropped and the batch is never aborted), and the emitted
secret is the empty string exactly when the record's secret bytes are
empty. -/
theorem C2_empty_secret_emitted :
    ∀ otps : List OtpParameters,
      (parse_migration_accounts otps).length = otps.length ∧
      ∀ otp : OtpParameters, ((normalizeOtp otp).secret = "" ↔ otp.secret = []) := by
  intro otps
  refine ⟨by simp [parse_migration_accounts], ?_⟩
  intro otp
  simp only [normalizeOtp]
  exact b32encode_eq_empty otp.secret

/-! ### C5 -/

/-- C5 counterexample: on the two OTP entries of the claim the emitted
Base32 secrets are "AAAQ====" and "74======"; the strings the claim
expects, "AAE=" and "7A======", are not those values under any padding
convention ("AAE=" is the Base64, not Base32, text of the bytes 0x00 0x01,
and "7A" decodes to the byte 0xF8, not 0xFF). -/
theorem C5_counterexample :
    (parse_migration_accounts
        [{ secret := [0, 1], name := "Ericlein", issuer := "GitHub",
           algorithm := 1, digits := 1 },
         { secret := [255], name := "", issuer := "Discord",
           algorithm := 1, digits := 1 }]).map Account.secret =
      ["AAAQ====", "74======"] ∧
    ("AAAQ====" : String) ≠ "AAE=" ∧ ("AAAQ====" : String) ≠ "AAE" ∧
    ("74======" : String) ≠ "7A======" ∧ ("74======" : String) ≠ "7A" := by
  decide

/-- C5 amended: on the two OTP entries (secrets 0x00 0x01 and 0xFF, issuer
GitHub with name Ericlein, and issuer Discord with empty name) the
normalizer emits exactly two accounts in that order, named
"GitHub (Ericlein)" and "Discord", with Base32 secrets "AAAQ====" and
"74======". -/
theorem C5_migration_two_entries :
    parse_migration_accounts
        [{ secret := [0, 1], name := "Ericlein", issuer := "GitHub",
           algorithm := 1, digits := 1 },
         { secret := [255], name := "", issuer := "Discord",
           algorithm := 1, digits := 1 }] =
      [{ name := "GitHub (Ericlein)", secret := "AAAQ====", digits := 6,
         algorithm := "SHA1" },
       { name := "Discord", secret := "74======", digits := 6,
         algorithm := "SHA1" }] := by
  decide

/-! ### C7 -/

/-- A file-system state in which both output paths are already occupied. -/
def c7FsBoth : FileSystem := fun p =>
  if p = ACCOUNTS_JSON_PATH then some [{ name := "Old", secret := "S1", digits := 6, algorithm := "SHA1" }]
  else if p = UPDATED_ACCOUNTS_JSON_PATH then some [{ name := "Older", secret := "S2", digits := 6, algorithm := "SHA1" }]
  else none

/-- C7 counterexample: when the alternate path is already occupied the
writer still writes there, destroying the occupied file's contents, so it
is not true that no existing file is ever overwritten. -/
theorem C7_counterexample :
    (c7FsBoth UPDATED_ACCOUNTS_JSON_PATH).isSome = true ∧
    (create_accounts_json [{ name := "New", secret := "S3", digits := 8, algorithm := "SHA1" }] c7FsBoth).1 =
      some UPDATED_ACCOUNTS_JSON_PATH ∧
    (create_accounts_json [{ name := "New", secret := "S3", digits := 8, algorithm := "SHA1" }] c7FsBoth).2
        UPDATED_ACCOUNTS_JSON_PATH ≠ c7FsBoth UPDATED_ACCOUNTS_JSON_PATH := by
  decide

/-- C7 amended: the writer never overwrites the primary target: when
`accounts.json` exists, the write goes to the distinct fixed alternate path
`updated_accounts.json` and the primary file is untouched; and starting
from a state where the primary path is free, a first write lands on the
primary path, a second write lands on the distinct alternate path and
leaves the first write's contents intact.  (The alternate path itself is
not collision-checked and may be overwritten, per the counterexample.) -/
theorem C7_no_clobber_primary :
    (∀ (accounts : List Account) (fs : FileSystem), accounts ≠ [] →
      (fs ACCOUNTS_JSON_PATH).isSome = true →
      (create_accounts_json accounts fs).1 = some UPDATED_ACCOUNTS_JSON_PATH ∧
      UPDATED_ACCOUNTS_JSON_PATH ≠ ACCOUNTS_JSON_PATH ∧
      (create_accounts_json accounts fs).2 ACCOUNTS_JSON_PATH = fs ACCOUNTS_JSON_PATH) ∧
    (∀ (accs1 accs2 : List Account) (fs : FileSystem), accs1 ≠ [] → accs2 ≠ [] →
      fs ACCOUNTS_JSON_PATH = none →
      (create_accounts_json accs1 fs).1 = some ACCOUNTS_JSON_PATH ∧
      (create_accounts_json accs2 (create_accounts_json accs1 fs).2).1 =
        some UPDATED_ACCOUNTS_JSON_PATH ∧
      UPDATED_ACCOUNTS_JSON_PATH ≠ ACCOUNTS_JSON_PATH ∧
      (create_accounts_json accs2 (create_accounts_json accs1 fs).2).2 ACCOUNTS_JSON_PATH =
        some accs1) := by
  constructor
  · intro accounts fs h1 h2
    refine ⟨?_, by decide, ?_⟩
    · simp [create_accounts_json, h1, h2]
    · simp only [create_accounts_json, if_neg h1, h2, if_true]
      have : ACCOUNTS_JSON_PATH ≠ UPDATED_ACCOUNTS_JSON_PATH := by decide
      simp [this]
  · intro accs1 accs2 fs h1 h2 h3
    have hA : UPDATED_ACCOUNTS_JSON_PATH ≠ ACCOUNTS_JSON_PATH := by decide
    refine ⟨?_, ?_, hA, ?_⟩
    · simp [create_accounts_json, h1, h3]
    · simp [create_accounts_json, h1, h2, h3]
    · simp [create_accounts_json, h1, h2, h3, hA.symm]

/-- C7 witness: the amended theorem applied to a concrete nonempty account
list and the concrete occupied file system `c7FsBoth`. -/
theorem C7_witness :
    (create_accounts_json [{ name := "N", secret := "S", digits := 6, algorithm := "SHA1" }] c7FsBoth).2
        ACCOUNTS_JSON_PATH = c7FsBoth ACCOUNTS_JSON_PATH :=
  (C7_no_clobber_primary.1
      [{ name := "N", secret := "S", digits := 6, algorithm := "SHA1" }]
      c7FsBoth (by decide) (by decide)).2.2

/-! ### C3 -/

/-- C3: when the label contains a colon, a supplied (nonempty) issuer
query parameter is kept as the issuer and the part of the label after the
first colon becomes the account name, while without an issuer parameter
the part before the first colon becomes the issuer; and the concrete URL
of the claim parses to the name "MCB (Acme)" with 8 digits. -/
theorem C3_label_colon_split :
    (∀ (label iss : String) (p0 p1 : List Char),
        splitOnFirstChar ':' label.data = some (p0, p1) → iss ≠ "" →
        labelSplit label (some iss) = (iss, String.mk p1)) ∧
    (∀ (label : String) (p0 p1 : List Char),
        splitOnFirstChar ':' label.data = some (p0, p1) →
        labelSplit label none = (String.mk p0, String.mk p1)) ∧
    parse_otpauth_url "otpauth://totp/MCB:Acme?secret=ABCDEF&issuer=MCB&digits=8" =
      some { name := "MCB (Acme)", secret := "ABCDEF", digits := 8,
             algorithm := "SHA1" } := by
  refine ⟨?_, ?_, by decide⟩
  · intro label iss p0 p1 h hne
    unfold labelSplit
    rw [h]
    simp [optTruthy, hne]
  · intro label p0 p1 h
    unfold labelSplit
    rw [h]
    simp [optTruthy]

/-- C3 witness: the two splitting rules applied to the concrete label
"MCB:Acme" with and without the issuer parameter "MCB". -/
theorem C3_witness :
    labelSplit "MCB:Acme" (some "MCB") = ("MCB", String.mk ['A', 'c', 'm', 'e']) ∧
    labelSplit "MCB:Acme" none = (String.mk ['M', 'C', 'B'], String.mk ['A', 'c', 'm', 'e']) :=
  ⟨C3_label_colon_split.1 "MCB:Acme" "MCB" ['M', 'C', 'B'] ['A', 'c', 'm', 'e']
      (by decide) (by decide),
   C3_label_colon_split.2.1 "MCB:Acme" ['M', 'C', 'B'] ['A', 'c', 'm', 'e'] (by decide)⟩

/-! ### C4 -/

/-- C4: both paths compose the display name by the same rule: both
fragments nonempty gives the issuer followed by the name in parentheses,
one nonempty fragment gives that fragment, neither gives "Unknown"; the
composed name is never empty, and in particular every account either
parser emits has a nonempty name. -/
theorem C4_display_name_rule :
    (∀ i n : String, displayNameUrl i n = displayNameMigration i n) ∧
    (∀ i n : String, i ≠ "" → n ≠ "" → displayNameUrl i n = i ++ " (" ++ n ++ ")") ∧
    (∀ i : String, i ≠ "" → displayNameUrl i "" = i) ∧
    (∀ n : String, n ≠ "" → displayNameUrl "" n = n) ∧
    displayNameUrl "" "" = "Unknown" ∧
    (∀ i n : String, displayNameUrl i n ≠ "") ∧
    (∀ (url : String) (a : Account), parse_otpauth_url url = some a → a.name ≠ "") ∧
    (∀ (otps : List OtpParameters) (a : Account),
        a ∈ parse_migration_accounts otps → a.name ≠ "") := by
  refine ⟨fun i n => rfl, ?_, ?_, ?_, by decide, displayNameUrl_ne_empty, ?_, ?_⟩
  · intro i n hi hn
    unfold displayNameUrl
    rw [if_pos ⟨hi, hn⟩]
  · intro i hi
    unfold displayNameUrl
    rw [if_neg (by simp), if_pos hi]
  · intro n hn
    unfold displayNameUrl
    rw [if_neg (by simp), if_neg (by simp), if_pos hn]
  · intro url a h
    obtain ⟨parts, s, n, hp, hs, hsec, hne, hd, ha⟩ := parse_otpauth_inv url a h
    rw [ha]
    exact displayNameUrl_ne_empty _ _
  · intro otps a h
    obtain ⟨otp, hmem, rfl⟩ := List.mem_map.mp h
    show displayNameMigration _ _ ≠ ""
    rw [← displayNameUrl_eq_migration]
    exact displayNameUrl_ne_empty _ _

/-- C4 witness: the both-nonempty composition rule at concrete issuer
"GitHub" and name "Ericlein". -/
theorem C4_witness :
    displayNameUrl "GitHub" "Ericlein" = "GitHub" ++ " (" ++ "Ericlein" ++ ")" :=
  C4_display_name_rule.2.1 "GitHub" "Ericlein" (by decide) (by decide)

/-! ### C6 -/

/-- C6 counterexample: the URL has a valid secret and an invalid (non
numeric) digits value, yet the parser yields no result instead of a
result with 6 digits: the `int` call raises, and the handler turns the
whole parse into `None`. -/
theorem C6_counterexample :
    parse_otpauth_url "otpauth://totp/X?secret=AB&digits=abc" = none ∧
    pyGetFirst (pyParseQs "secret=AB&digits=abc") "secret" = some "AB" ∧
    pyInt "abc" = none := by
  decide

/-- C6 amended: for a URL with scheme otpauth and a nonempty secret, an
absent digits parameter yields a result with 6 digits, and a numeric
digits value outside 6..8 also yields 6; but a digits value that does not
parse as an integer makes the parser yield no result at all. -/
theorem C6_digits_default :
    ∀ (url : String) (parts : UrlParts) (s : String),
      pyUrlparse url = Except.ok parts → parts.scheme = "otpauth" →
      pyGetFirst (pyParseQs parts.query) "secret" = some s → s ≠ "" →
      ((pyGetFirst (pyParseQs parts.query) "digits" = none →
          ∃ a, parse_otpauth_url url = some a ∧ a.digits = 6) ∧
       (∀ d n, pyGetFirst (pyParseQs parts.query) "digits" = some d →
          pyInt d = some n → ¬(n = 6 ∨ n = 7 ∨ n = 8) →
          ∃ a, parse_otpauth_url url = some a ∧ a.digits = 6) ∧
       (∀ d, pyGetFirst (pyParseQs parts.query) "digits" = some d →
          pyInt d = none → parse_otpauth_url url = none)) := by
  intro url parts s hp hs hsec hne
  refine ⟨?_, ?_, ?_⟩
  · intro hd0
    have hd : pyInt ((pyGetFirst (pyParseQs parts.query) "digits").getD "6") = some 6 := by
      rw [hd0]; decide
    exact ⟨_, parse_otpauth_eval url parts s 6 hp hs hsec hne hd, rfl⟩
  · intro d n hd0 hn hout
    have hd : pyInt ((pyGetFirst (pyParseQs parts.query) "digits").getD "6") = some n := by
      rw [hd0]; exact hn
    refine ⟨_, parse_otpauth_eval url parts s n hp hs hsec hne hd, ?_⟩
    show validateDigitsUrl n = 6
    unfold validateDigitsUrl
    rw [if_neg hout]
  · intro d hd0 hni
    have hd : pyInt ((pyGetFirst (pyParseQs parts.query) "digits").getD "6") = none := by
      rw [hd0]; exact hni
    exact parse_otpauth_int_error url parts s hp hs hsec hne hd

/-- C6 witness: the absent-digits case of the amended theorem at a
concrete URL, yielding an account with 6 digits. -/
theorem C6_witness :
    ∃ a, parse_otpauth_url "otpauth://totp/WS?secret=QQ" = some a ∧ a.digits = 6 :=
  (C6_digits_default "otpauth://totp/WS?secret=QQ"
      { scheme := "otpauth", netloc := "totp", path := "/WS", pathParams := "",
        query := "secret=QQ", fragment := "" } "QQ"
      (by decide) rfl (by decide) (by decide)).1 (by decide)

/-! ### C8 -/

/-- C8: the single-account parser is total: it yields a record or no
result, and any exception the body raises (modelled by the `Except` error
of `parseOtpauthBody`) is caught and becomes no result. -/
theorem C8_total_no_throw :
    ∀ url : String,
      (parse_otpauth_url url = none ∨ ∃ a, parse_otpauth_url url = some a) ∧
      (∀ e, parseOtpauthBody url = Except.error e → parse_otpauth_url url = none) := by
  intro url
  constructor
  · cases h : parse_otpauth_url url with
    | none => exact Or.inl rfl
    | some a => exact Or.inr ⟨a, rfl⟩
  · intro e he
    unfold parse_otpauth_url
    rw [he]

/-- C8 witness: a URL whose body raises on `int("zz")`; the exception is
caught and the parser yields no result. -/
theorem C8_witness : parse_otpauth_url "otpauth://totp/E?secret=QQ&digits=zz" = none :=
  (C8_total_no_throw "otpauth://totp/E?secret=QQ&digits=zz").2
    "invalid literal for int with base 10" (by decide)

/-! ### C9 -/

/-- C9: a secret query parameter that is present but empty (it appears
with value "" when blank values are kept, and every occurrence of it is
blank) is treated like an absent one: the parser yields no result,
because `parse_qs` drops blank values. -/
theorem C9_empty_secret_param :
    ∀ (url : String) (parts : UrlParts),
      pyUrlparse url = Except.ok parts →
      ("secret", "") ∈ parseQsl true parts.query →
      (∀ v, ("secret", v) ∈ parseQsl true parts.query → v = "") →
      parse_otpauth_url url = none := by
  intro url parts hp hmem hall
  apply parse_otpauth_no_secret url parts hp
  unfold pyGetFirst pyParseQs
  rw [parseQsl_false_eq_filter]
  have hfind :
      ((parseQsl true parts.query).filter (fun p => p.2 ≠ "")).find?
        (fun p => p.1 == "secret") = none := by
    rw [List.find?_eq_none]
    intro p hpmem
    rw [List.mem_filter] at hpmem
    obtain ⟨hmem2, hfil⟩ := hpmem
    intro hbeq
    have hkey : p.1 = "secret" := eq_of_beq hbeq
    have hp2 : p.2 = "" := hall p.2 (by rw [show ("secret", p.2) = p from by rw [← hkey]]; exact hmem2)
    simp [hp2] at hfil
  rw [hfind]
  rfl

/-- C9 witness: the concrete URL with an empty secret parameter yields no
result. -/
theorem C9_witness : parse_otpauth_url "otpauth://totp/V?secret=" = none :=
  C9_empty_secret_param "otpauth://totp/V?secret="
    { scheme := "otpauth", netloc := "totp", path := "/V", pathParams := "",
      query := "secret=", fragment := "" }
    (by decide) (by decide)
    (by
      intro v hv
      have hq : parseQsl true "secret=" = [("secret", "")] := by decide
      rw [hq] at hv
      simp at hv
      exact hv)

/-! ### C10 -/

/-- C10: whenever the single-account parser yields a result, the result's
secret is exactly the first value of the secret query parameter as the
query parser extracted it: no Base32 validation, re-encoding or case
normalization happens between extraction and emission. -/
theorem C10_secret_verbatim :
    ∀ (url : String) (a : Account), parse_otpauth_url url = some a →
      ∃ parts, pyUrlparse url = Except.ok parts ∧
        pyGetFirst (pyParseQs parts.query) "secret" = some a.secret := by
  intro url a h
  obtain ⟨parts, s, n, hp, hs, hsec, hne, hd, ha⟩ := parse_otpauth_inv url a h
  refine ⟨parts, hp, ?_⟩
  rw [ha]
  exact hsec

/-- C10 witness: a concrete parse whose emitted secret is the extracted
parameter value "SECRETX", unchanged. -/
theorem C10_witness :
    ∃ parts, pyUrlparse "otpauth://totp/W?secret=SECRETX" = Except.ok parts ∧
      pyGetFirst (pyParseQs parts.query) "secret" =
        some (Account.secret { name := "W", secret := "SECRETX", digits := 6,
                               algorithm := "SHA1" }) :=
  C10_secret_verbatim "otpauth://totp/W?secret=SECRETX"
    { name := "W", secret := "SECRETX", digits := 6, algorithm := "SHA1" } (by decide)

example : b32encode [0, 1] = "AAAQ====" := by decide
example : b32encode [255] = "74======" := by decide
example : b32encode [] = "" := by decide
example : b32encode [72, 101, 108, 108, 111, 33] = "JBSWY3DPEE======" := by decide
example : pyInt "8" = some 8 := by decide
example : pyInt " 67 " = some 67 := by decide
example : pyInt "abc" = none := by decide
example : pyInt "6_7" = some 67 := by decide
example : pyInt "_6" = none := by decide
example : pyInt "-8" = some (-8) := by decide
example : pyUnquote "MCB%3AAcme" = "MCB:Acme" := by decide
example : pyParseQs "secret=ABCDEF&issuer=MCB&digits=8" =
    [("secret", "ABCDEF"), ("issuer", "MCB"), ("digits", "8")] := by decide
example : pyParseQs "secret=" = [] := by decide
example : parseQsl true "secret=" = [("secret", "")] := by decide
example :
    parse_otpauth_url "otpauth://totp/MCB:Acme?secret=ABCDEF&issuer=MCB&digits=8" =
      some { name := "MCB (Acme)", secret := "ABCDEF", digits := 8, algorithm := "SHA1" } := by
  decide
example : parse_otpauth_url "otpauth://totp/X?secret=AB&digits=abc" = none := by decide
example : parse_otpauth_url "otpauth://totp/X?secret=AB" =
    some { name := "X", secret := "AB", digits := 6, algorithm := "SHA1" } := by decide
example : parse_otpauth_url "otpauth://totp/GitHub:me?secret=S" =
    some { name := "GitHub (me)", secret := "S", digits := 6, algorithm := "SHA1" } := by decide
